import Mathlib

/-!
Verification of the `/health` boilerplate Express server.

The development shallowly embeds the two source files:

* `src/app.ts` — an Express app with a single registered route,
  `app.route("/health").get(...)`, whose handler answers
  `res.status(200).json({status: "OK", message: "Server is running",
  timestamp: new Date().toISOString()})`;
* `src/index.ts` — `const PORT = process.env.PORT || 8000` and a
  `startServer` function wrapping `app.listen` in try/catch, logging two
  startup lines from the listen callback on success. Node delivers bind
  failures (EADDRINUSE) asynchronously as an `error` event emitted after
  `app.listen` has returned, so the catch block is unreachable for them:
  the process dies of the unhandled `error` event (an uncaught exception)
  with exit code 1, and neither the catch block's failure line nor the
  startup lines are ever logged.

Requests are explicit records; the clock instant at response construction is
an explicit parameter `now` in milliseconds since the Unix epoch.
`Date.prototype.toISOString` is runtime-provided; it is modelled from the
ECMAScript specification (proleptic Gregorian calendar, UTC, format
`YYYY-MM-DDTHH:mm:ss.sssZ`), with the year of a day number defined — as in
ECMA-262 — as the largest year whose first day is not after it.
`parseISOms` is the inverse reading of that grammar, used to state that
produced timestamps are valid ISO-8601 and order-preserving.
-/

/-! ### Civil calendar arithmetic (model of the Date built-ins) -/

/-- Day-of-era on which in-era year `k` (0 ≤ k ≤ 399) begins. -/
def yearStart (k : Nat) : Nat := 365 * k + k / 4 - k / 100

/-- Largest `j ≤ k` with `yearStart j ≤ doe`. -/
def findYoe (doe : Nat) : Nat → Nat
  | 0 => 0
  | k + 1 => if yearStart (k + 1) ≤ doe then k + 1 else findYoe doe k

def civilFromDays (days : Nat) : Nat × Nat × Nat :=
  let z := days + 719468
  let era := z / 146097
  let doe := z % 146097
  let yoe := findYoe doe 399
  let y := yoe + era * 400
  let doy := doe - yearStart yoe
  let mp := (5 * doy + 2) / 153
  let d := doy - (153 * mp + 2) / 5 + 1
  let m := if mp < 10 then mp + 3 else mp - 9
  (if m ≤ 2 then y + 1 else y, m, d)

def daysFromCivil (y m d : Nat) : Int :=
  let y' := if m ≤ 2 then y - 1 else y
  let era := y' / 400
  let yoe := y' % 400
  let mp := if 2 < m then m - 3 else m + 9
  let doy := (153 * mp + 2) / 5 + d - 1
  (era : Int) * 146097 + (yearStart yoe + doy : Nat) - 719468

def daysInMonth (y m : Nat) : Nat :=
  if m = 2 then (if y % 4 = 0 ∧ (y % 100 ≠ 0 ∨ y % 400 = 0) then 29 else 28)
  else if m = 4 ∨ m = 6 ∨ m = 9 ∨ m = 11 then 30 else 31

/-! ### ISO-8601 formatting and parsing -/

def digitChar (n : Nat) : Char := Char.ofNat (48 + n % 10)

def padDigits : Nat → Nat → List Char
  | 0, _ => []
  | w + 1, v => padDigits w (v / 10) ++ [digitChar v]

def toISOString (t : Nat) : String :=
  let days := t / 86400000
  let rem := t % 86400000
  let c := civilFromDays days
  String.mk (padDigits 4 c.1 ++ '-' :: padDigits 2 c.2.1 ++ '-' :: padDigits 2 c.2.2 ++
    'T' :: padDigits 2 (rem / 3600000) ++ ':' :: padDigits 2 (rem % 3600000 / 60000) ++
    ':' :: padDigits 2 (rem % 60000 / 1000) ++ '.' :: padDigits 3 (rem % 1000) ++ ['Z'])

def readDigit (c : Char) : Option Nat :=
  if 48 ≤ c.toNat ∧ c.toNat ≤ 57 then some (c.toNat - 48) else none

def readDigitsAux : List Char → Nat → Option Nat
  | [], acc => some acc
  | c :: cs, acc =>
    match readDigit c with
    | some d => readDigitsAux cs (10 * acc + d)
    | none => none

def readDigits (cs : List Char) : Option Nat := readDigitsAux cs 0

def assembleMs (y mo d hh mi ss ms : Nat) : Option Nat :=
  if 1 ≤ mo ∧ mo ≤ 12 ∧ 1 ≤ d ∧ d ≤ daysInMonth y mo ∧ hh ≤ 23 ∧ mi ≤ 59 ∧ ss ≤ 59 then
    if 0 ≤ daysFromCivil y mo d then
      some ((daysFromCivil y mo d).toNat * 86400000 + hh * 3600000 + mi * 60000 +
        ss * 1000 + ms)
    else none
  else none

def parseISOms (s : String) : Option Nat :=
  match s.data with
  | [y1, y2, y3, y4, c1, mo1, mo2, c2, d1, d2, c3, hh1, hh2, c4, i1, i2, c5, ss1, ss2, c6,
      f1, f2, f3, c7] =>
    if c1 = '-' ∧ c2 = '-' ∧ c3 = 'T' ∧ c4 = ':' ∧ c5 = ':' ∧ c6 = '.' ∧ c7 = 'Z' then
      (readDigits [y1, y2, y3, y4]).bind fun y =>
      (readDigits [mo1, mo2]).bind fun mo =>
      (readDigits [d1, d2]).bind fun d =>
      (readDigits [hh1, hh2]).bind fun hh =>
      (readDigits [i1, i2]).bind fun mi =>
      (readDigits [ss1, ss2]).bind fun ss =>
      (readDigits [f1, f2, f3]).bind fun ms =>
      assembleMs y mo d hh mi ss ms
    else none
  | _ => none

/-! ### Model of the Express application (src/app.ts and src/index.ts) -/

inductive Method
  | GET
  | POST
  | PUT
  | PATCH
  | DELETE
deriving DecidableEq

def methodName : Method → String
  | .GET => "GET"
  | .POST => "POST"
  | .PUT => "PUT"
  | .PATCH => "PATCH"
  | .DELETE => "DELETE"

structure Request where
  method : Method
  path : String
  headers : List (String × String)
  query : List (String × String)
  body : String
deriving DecidableEq

/-- JavaScript values that can appear as fields of the (flat) JSON object the
app serializes. -/
inductive JSValue
  | str (s : String)
  | num (n : Int)
  | bool (b : Bool)
  | bigintVal (n : Int)
  | nullVal
deriving DecidableEq

inductive Body
  | json (fields : List (String × JSValue))
  | text (s : String)
deriving DecidableEq

structure Response where
  status : Nat
  contentType : String
  body : Body
deriving DecidableEq

def Body.jsonField : Body → String → Option JSValue
  | .json fields, k => (fields.find? (fun kv => kv.1 == k)).map (fun kv => kv.2)
  | .text _, _ => none

/-- The GET handler registered on route `/health` in src/app.ts:
`res.status(200).json({status: "OK", message: "Server is running",
timestamp: new Date().toISOString()})`. `now` is the clock reading (ms since
the Unix epoch) at response construction. -/
def healthHandler (now : Nat) (_req : Request) : Response :=
  { status := 200
    contentType := "application/json"
    body := .json [("status", .str "OK"), ("message", .str "Server is running"),
      ("timestamp", .str (toISOString now))] }

def healthRoute : Method × String := (Method.GET, "/health")

/-- Express dispatch: the app has exactly one registered route
(`app.route("/health").get(...)`); any other method/path pair falls through to
Express's default 404 handler. -/
def handleRequest (now : Nat) (req : Request) : Response :=
  if req.method = healthRoute.1 ∧ req.path = healthRoute.2 then
    healthHandler now req
  else
    { status := 404, contentType := "text/html",
      body := .text ("Cannot " ++ methodName req.method ++ " " ++ req.path) }

/-- JSON.stringify on a primitive: total except on BigInt, which throws. -/
def stringifyPrim : JSValue → Option String
  | .str s => some ("\"" ++ s ++ "\"")
  | .num n => some (toString n)
  | .bool b => some (if b then "true" else "false")
  | .nullVal => some "null"
  | .bigintVal _ => none

def stringifyFields : List (String × JSValue) → Option String
  | [] => some ""
  | (k, v) :: rest =>
    (stringifyPrim v).bind fun sv =>
      (stringifyFields rest).bind fun srest =>
        some ("\"" ++ k ++ "\":" ++ sv ++ (if rest.isEmpty then "" else ",") ++ srest)

def stringifyBody : Body → Option String
  | .json fields => (stringifyFields fields).bind fun s => some ("\x7b" ++ s ++ "\x7d")
  | .text s => some s

/-- The listen port computed in src/index.ts: `process.env.PORT || 8000`.
A set, non-empty `PORT` (the only truthy strings) is passed through verbatim;
otherwise the numeric default 8000 is used. -/
inductive JSPort
  | num (n : Nat)
  | str (s : String)
deriving DecidableEq

def resolvePort (envPort : Option String) : JSPort :=
  match envPort with
  | some s => if s = "" then .num 8000 else .str s
  | none => .num 8000

def portString : JSPort → String
  | .num n => toString n
  | .str s => s

inductive ListenResult
  | ok
  | error (e : String)

structure StartOutcome where
  logs : List String
  exitCode : Option Nat
deriving DecidableEq

def serverRunningLog (p : JSPort) : String :=
  "🚀 Server running on http://localhost:" ++ portString p

def healthAvailableLog (p : JSPort) : String :=
  "📊 Health check available at http://localhost:" ++ portString p ++ "/health"

/-- The failure line the catch block in src/index.ts would print — if the
catch block ever ran. -/
def catchLog (e : String) : String := "❌ Failed to start server: " ++ e

/-- Node's stderr report when the server's unhandled `error` event is thrown
as an uncaught exception. -/
def uncaughtErrorReport (e : String) : String := "Uncaught Error: " ++ e

/-- src/index.ts `startServer`: `app.listen` is called inside try/catch; on
success the listen callback logs the two startup lines. A bind failure
(e.g. EADDRINUSE when the port is occupied) is emitted by Node
asynchronously, as an `error` event on a later tick: `app.listen` itself
returns normally, the try block completes, and the catch block — with its
`catchLog` line — never runs. The unhandled `error` event is rethrown as an
uncaught exception, which prints Node's error report and terminates the
process with exit code 1; the listen callback, and hence the
"Server running" line, is never invoked. -/
def startServer (listenResult : ListenResult) (port : JSPort) : StartOutcome :=
  match listenResult with
  | .ok => { logs := [serverRunningLog port, healthAvailableLog port], exitCode := none }
  | .error e =>
    { logs := [uncaughtErrorReport e], exitCode := some 1 }

/-! ### Concrete sanity checks -/

set_option maxRecDepth 4000 in
example : civilFromDays 0 = (1970, 1, 1) := by decide

example : handleRequest 0 ⟨.GET, "/health", [], [], ""⟩ =
    { status := 200, contentType := "application/json",
      body := .json [("status", .str "OK"), ("message", .str "Server is running"),
        ("timestamp", .str "1970-01-01T00:00:00.000Z")] } := by
  set_option maxRecDepth 8000 in decide

example : (handleRequest 5 ⟨.POST, "/health", [], [], ""⟩).status = 404 := by decide
example : (handleRequest 5 ⟨.GET, "/unknown", [], [], ""⟩).status = 404 := by decide
example : resolvePort (some "") = .num 8000 := by decide
example : stringifyBody (handleRequest 0 ⟨.GET, "/health", [], [], ""⟩).body =
    some "\x7b\"status\":\"OK\",\"message\":\"Server is running\",\"timestamp\":\"1970-01-01T00:00:00.000Z\"\x7d" := by
  set_option maxRecDepth 8000 in decide

/-! ### The civil-date round trip -/

theorem findYoe_le (doe k : Nat) : findYoe doe k ≤ k := by
  induction k with
  | zero => simp [findYoe]
  | succ k ih => simp only [findYoe]; split <;> omega

theorem findYoe_start_le (doe k : Nat) : yearStart (findYoe doe k) ≤ doe := by
  induction k with
  | zero => simp [findYoe, yearStart]
  | succ k ih => simp only [findYoe]; split <;> simp_all

theorem findYoe_maximal (doe k j : Nat) (hj : j ≤ k) (h : yearStart j ≤ doe) :
    j ≤ findYoe doe k := by
  induction k with
  | zero => omega
  | succ k ih =>
    simp only [findYoe]; split
    · omega
    · rcases Nat.lt_or_ge j (k + 1) with h' | h'
      · exact ih (by omega)
      · have hj1 : j = k + 1 := by omega
        subst hj1
        omega

theorem findYoe_next (doe k : Nat) (h : findYoe doe k < k) :
    doe < yearStart (findYoe doe k + 1) := by
  by_contra hc
  have := findYoe_maximal doe k (findYoe doe k + 1) (by omega) (by omega)
  omega

set_option maxHeartbeats 1000000 in
/-- Core arithmetic of the civil-date round trip, stated over an arbitrary
era/day-of-era/year-of-era decomposition satisfying the bracketing conditions. -/
theorem roundtrip_core (era doe yoe doy mp d m y : Nat)
    (h2 : doe < 146097) (h3 : yoe ≤ 399)
    (h4 : yearStart yoe ≤ doe)
    (h5 : yoe < 399 → doe < yearStart (yoe + 1))
    (hdoy : doy = doe - yearStart yoe)
    (hmp : mp = (5 * doy + 2) / 153)
    (hd : d = doy - (153 * mp + 2) / 5 + 1)
    (hm : m = if mp < 10 then mp + 3 else mp - 9)
    (hy : y = if m ≤ 2 then yoe + era * 400 + 1 else yoe + era * 400) :
    1 ≤ m ∧ m ≤ 12 ∧ 1 ≤ d ∧ d ≤ daysInMonth y m ∧
      daysFromCivil y m d = (era : Int) * 146097 + (doe : Int) - 719468 := by
  simp only [yearStart] at h4 h5 hdoy
  have hdoy2 : doy ≤ 365 := by omega
  have hmp2 : mp ≤ 11 := by omega
  have hd5 : (153 * mp + 2) / 5 ≤ doy := by omega
  rcases Nat.lt_or_ge mp 10 with hlt | hge
  · -- mp < 10 : month = mp + 3 ∈ [3, 12]
    rw [if_pos hlt] at hm
    rw [hm, if_neg (by omega : ¬ mp + 3 ≤ 2)] at hy
    refine ⟨by omega, by omega, by omega, ?_, ?_⟩
    · -- d ≤ daysInMonth y m ; month ≥ 3, never february
      rw [hm]
      unfold daysInMonth
      rw [if_neg (by omega : ¬ mp + 3 = 2)]
      split <;> omega
    · rw [hm, hy]
      unfold daysFromCivil
      simp only
      rw [if_neg (by omega : ¬ mp + 3 ≤ 2), if_pos (by omega : 2 < mp + 3)]
      have e1 : (yoe + era * 400) / 400 = era := by omega
      have e2 : (yoe + era * 400) % 400 = yoe := by omega
      have e3 : mp + 3 - 3 = mp := by omega
      rw [e1, e2, e3]
      simp only [yearStart]
      push_cast
      omega
  · -- mp ≥ 10 : month = mp - 9 ∈ {1, 2}
    rw [if_neg (by omega : ¬ mp < 10)] at hm
    rw [hm, if_pos (by omega : mp - 9 ≤ 2)] at hy
    have m4 : (yoe + era * 400 + 1) % 4 = (yoe + 1) % 4 := by omega
    have m100 : (yoe + era * 400 + 1) % 100 = (yoe + 1) % 100 := by omega
    have m400 : (yoe + era * 400 + 1) % 400 = (yoe + 1) % 400 := by omega
    refine ⟨by omega, by omega, by omega, ?_, ?_⟩
    · rw [hm, hy]
      unfold daysInMonth
      rw [m4, m100, m400]
      have q4 : (yoe + 1) % 4 = 0 → (yoe + 1) / 4 = yoe / 4 + 1 := by omega
      have q4' : (yoe + 1) % 4 ≠ 0 → (yoe + 1) / 4 = yoe / 4 := by omega
      have q100 : (yoe + 1) % 100 = 0 → (yoe + 1) / 100 = yoe / 100 + 1 := by omega
      have q100' : (yoe + 1) % 100 ≠ 0 → (yoe + 1) / 100 = yoe / 100 := by omega
      rcases Nat.lt_or_ge yoe 399 with h399 | h399
      · have h5' := h5 h399
        split
        · -- february : mp = 11
          split <;> omega
        · split <;> omega
      · have he : yoe = 399 := by omega
        subst he
        split
        · split <;> omega
        · split <;> omega
    · rw [hm, hy]
      unfold daysFromCivil
      simp only
      rw [if_pos (by omega : mp - 9 ≤ 2), if_neg (by omega : ¬ 2 < mp - 9)]
      have e0 : yoe + era * 400 + 1 - 1 = yoe + era * 400 := by omega
      rw [e0]
      have e1 : (yoe + era * 400) / 400 = era := by omega
      have e2 : (yoe + era * 400) % 400 = yoe := by omega
      rw [e1, e2]
      simp only [yearStart]
      push_cast
      omega

theorem civil_roundtrip (days : Nat) :
    1 ≤ (civilFromDays days).2.1 ∧ (civilFromDays days).2.1 ≤ 12 ∧
      1 ≤ (civilFromDays days).2.2 ∧
      (civilFromDays days).2.2 ≤ daysInMonth (civilFromDays days).1 (civilFromDays days).2.1 ∧
      daysFromCivil (civilFromDays days).1 (civilFromDays days).2.1 (civilFromDays days).2.2 =
        (days : Int) := by
  have h2 : (days + 719468) % 146097 < 146097 := by omega
  have h3 := findYoe_le ((days + 719468) % 146097) 399
  have h4 := findYoe_start_le ((days + 719468) % 146097) 399
  have h5 := findYoe_next ((days + 719468) % 146097) 399
  have core := roundtrip_core ((days + 719468) / 146097) ((days + 719468) % 146097)
    (findYoe ((days + 719468) % 146097) 399) _ _ _ _ _
    h2 h3 h4 h5 rfl rfl rfl rfl rfl
  obtain ⟨c1, c2, c3, c4, c5⟩ := core
  simp only [civilFromDays]
  exact ⟨c1, c2, c3, c4, by rw [c5]; omega⟩

/-! ### Digit rendering and parsing -/

theorem readDigit_digitChar (n : Nat) : readDigit (digitChar n) = some (n % 10) := by
  have h : n % 10 < 10 := Nat.mod_lt _ (by omega)
  unfold digitChar
  set k := n % 10 with hk
  interval_cases k <;> decide

theorem padDigits_two (v : Nat) : padDigits 2 v = [digitChar (v / 10), digitChar v] := by
  simp [padDigits]

theorem padDigits_three (v : Nat) :
    padDigits 3 v = [digitChar (v / 10 / 10), digitChar (v / 10), digitChar v] := by
  simp [padDigits]

theorem padDigits_four (v : Nat) :
    padDigits 4 v =
      [digitChar (v / 10 / 10 / 10), digitChar (v / 10 / 10), digitChar (v / 10),
        digitChar v] := by
  simp [padDigits]

theorem readDigits_two (v : Nat) (h : v < 100) : readDigits (padDigits 2 v) = some v := by
  rw [padDigits_two]
  simp only [readDigits, readDigitsAux, readDigit_digitChar]
  congr 1
  omega

theorem readDigits_three (v : Nat) (h : v < 1000) : readDigits (padDigits 3 v) = some v := by
  rw [padDigits_three]
  simp only [readDigits, readDigitsAux, readDigit_digitChar]
  congr 1
  omega

theorem readDigits_four (v : Nat) (h : v < 10000) : readDigits (padDigits 4 v) = some v := by
  rw [padDigits_four]
  simp only [readDigits, readDigitsAux, readDigit_digitChar]
  congr 1
  omega

/-! ### The ISO-8601 round trip -/

theorem daysFromCivil_big (y m d : Nat) (hy : 10000 ≤ y) (hm1 : 1 ≤ m) (hm2 : m ≤ 12)
    (hd1 : 1 ≤ d) : 2932896 < daysFromCivil y m d := by
  unfold daysFromCivil
  simp only [yearStart]
  rcases le_or_lt m 2 with hc | hc
  · rw [if_pos hc, if_neg (by omega : ¬ 2 < m)]
    rcases Nat.lt_or_ge ((y - 1) / 400) 25 with he | he
    · have e1 : (y - 1) / 400 = 24 := by omega
      have e2 : (y - 1) % 400 = 399 := by omega
      rw [e1, e2]
      push_cast
      omega
    · push_cast
      omega
  · rw [if_neg (by omega : ¬ m ≤ 2), if_pos hc]
    have he : 25 ≤ y / 400 := by omega
    push_cast
    omega

theorem civilFromDays_year_le (days : Nat) (h : days ≤ 2932896) :
    (civilFromDays days).1 ≤ 9999 := by
  by_contra hc
  push_neg at hc
  obtain ⟨hm1, hm2, hd1, _, heq⟩ := civil_roundtrip days
  have big := daysFromCivil_big (civilFromDays days).1 (civilFromDays days).2.1
    (civilFromDays days).2.2 (by omega) hm1 hm2 hd1
  rw [heq] at big
  omega

theorem daysInMonth_le (y m : Nat) : daysInMonth y m ≤ 31 := by
  unfold daysInMonth
  split
  · split <;> omega
  · split <;> omega

set_option maxHeartbeats 1000000 in
theorem parseISOms_toISOString (t : Nat) (ht : t ≤ 253402300799999) :
    parseISOms (toISOString t) = some t := by
  obtain ⟨hm1, hm2, hd1, hd2, heq⟩ := civil_roundtrip (t / 86400000)
  have hyle : (civilFromDays (t / 86400000)).1 ≤ 9999 :=
    civilFromDays_year_le _ (by omega)
  have hdim := daysInMonth_le (civilFromDays (t / 86400000)).1 (civilFromDays (t / 86400000)).2.1
  rcases e : civilFromDays (t / 86400000) with ⟨y, mo, d⟩
  rw [e] at hm1 hm2 hd1 hd2 heq hyle hdim
  dsimp only at hm1 hm2 hd1 hd2 heq hyle hdim
  have e_y : readDigits (padDigits 4 y) = some y := readDigits_four y (by omega)
  have e_mo : readDigits (padDigits 2 mo) = some mo := readDigits_two mo (by omega)
  have e_d : readDigits (padDigits 2 d) = some d := readDigits_two d (by omega)
  have e_hh : readDigits (padDigits 2 (t % 86400000 / 3600000)) = some (t % 86400000 / 3600000) :=
    readDigits_two _ (by omega)
  have e_mi : readDigits (padDigits 2 (t % 86400000 % 3600000 / 60000)) =
      some (t % 86400000 % 3600000 / 60000) := readDigits_two _ (by omega)
  have e_ss : readDigits (padDigits 2 (t % 86400000 % 60000 / 1000)) =
      some (t % 86400000 % 60000 / 1000) := readDigits_two _ (by omega)
  have e_ms : readDigits (padDigits 3 (t % 86400000 % 1000)) = some (t % 86400000 % 1000) :=
    readDigits_three _ (by omega)
  rw [padDigits_four] at e_y
  rw [padDigits_two] at e_mo e_d e_hh e_mi e_ss
  rw [padDigits_three] at e_ms
  unfold toISOString
  dsimp only
  rw [e]
  dsimp only
  rw [padDigits_four, padDigits_two, padDigits_two, padDigits_two, padDigits_two,
    padDigits_two, padDigits_three]
  unfold parseISOms
  simp only [List.cons_append, List.nil_append]
  rw [e_y, e_mo, e_d, e_hh, e_mi, e_ss, e_ms]
  rw [if_pos (show True ∧ True ∧ True ∧ True ∧ True ∧ True ∧ True from
    ⟨trivial, trivial, trivial, trivial, trivial, trivial, trivial⟩)]
  show assembleMs y mo d (t % 86400000 / 3600000) (t % 86400000 % 3600000 / 60000)
    (t % 86400000 % 60000 / 1000) (t % 86400000 % 1000) = some t
  unfold assembleMs
  have hval : 1 ≤ mo ∧ mo ≤ 12 ∧ 1 ≤ d ∧ d ≤ daysInMonth y mo ∧
      t % 86400000 / 3600000 ≤ 23 ∧ t % 86400000 % 3600000 / 60000 ≤ 59 ∧
      t % 86400000 % 60000 / 1000 ≤ 59 :=
    ⟨hm1, hm2, hd1, hd2, by omega, by omega, by omega⟩
  rw [if_pos hval]
  rw [heq]
  rw [if_pos (by omega : (0 : Int) ≤ ((t / 86400000 : Nat) : Int))]
  simp only [Int.toNat_natCast]
  congr 1
  omega

/-! ### Dispatch helper -/

theorem handleRequest_health (now : Nat) (req : Request)
    (hm : req.method = Method.GET) (hp : req.path = "/health") :
    handleRequest now req = healthHandler now req := by
  unfold handleRequest
  rw [if_pos ⟨hm.trans rfl, hp.trans rfl⟩]

/-! ### Claim theorems -/

/-- C1: every GET request to `/health` is answered with HTTP status 200 and a
JSON body with exactly the keys `status`, `message`, `timestamp`, each bound to
a string, under Content-Type `application/json`. -/
theorem health_get_shape (now : Nat) (req : Request)
    (hm : req.method = Method.GET) (hp : req.path = "/health") :
    (handleRequest now req).status = 200 ∧
      (handleRequest now req).contentType = "application/json" ∧
      ∃ sts msg ts, (handleRequest now req).body =
        Body.json [("status", JSValue.str sts), ("message", JSValue.str msg),
          ("timestamp", JSValue.str ts)] := by
  rw [handleRequest_health now req hm hp]
  exact ⟨rfl, rfl, "OK", "Server is running", toISOString now, rfl⟩

theorem health_get_shape_witness :
    (handleRequest 1760000000000 ⟨Method.GET, "/health", [("user-agent", "curl")],
        [("probe", "1")], ""⟩).status = 200 ∧
      (handleRequest 1760000000000 ⟨Method.GET, "/health", [("user-agent", "curl")],
        [("probe", "1")], ""⟩).contentType = "application/json" ∧
      ∃ sts msg ts, (handleRequest 1760000000000 ⟨Method.GET, "/health",
        [("user-agent", "curl")], [("probe", "1")], ""⟩).body =
        Body.json [("status", JSValue.str sts), ("message", JSValue.str msg),
          ("timestamp", JSValue.str ts)] :=
  health_get_shape 1760000000000 _ rfl rfl

/-- C2: the `status` field of the health response is always exactly the literal
string "OK". -/
theorem health_status_field (now : Nat) (req : Request)
    (hm : req.method = Method.GET) (hp : req.path = "/health") :
    (handleRequest now req).body.jsonField "status" = some (JSValue.str "OK") := by
  rw [handleRequest_health now req hm hp]
  rfl

theorem health_status_field_witness :
    (handleRequest 1760000000000 ⟨Method.GET, "/health", [], [], ""⟩).body.jsonField "status" =
      some (JSValue.str "OK") :=
  health_status_field 1760000000000 _ rfl rfl

/-- C3: with the environment variable PORT unset, the port passed to
`app.listen` is the numeric default 8000, and the startup logs report
localhost:8000. -/
theorem port_default_when_unset :
    resolvePort none = JSPort.num 8000 ∧
      startServer ListenResult.ok (resolvePort none) =
        { logs := ["🚀 Server running on http://localhost:8000",
            "📊 Health check available at http://localhost:8000/health"],
          exitCode := none } := by
  constructor
  · rfl
  · decide

/-- C4: evaluated at the failing input — a bind failure (EADDRINUSE, port 8000
already in use) — the exit parts of the claim hold: the process terminates with
exit code 1 and the successful "Server running" line is never logged. The
caught-and-logged part does not: the catch block's "❌ Failed to start server"
line is not logged either, because Node emits the bind error asynchronously
after `app.listen` returns, so the try/catch in src/index.ts never catches it
and its descriptive message is dead code. -/
theorem startServer_bind_failure :
    (startServer (ListenResult.error "listen EADDRINUSE: address already in use :::8000")
        (JSPort.num 8000)).exitCode = some 1 ∧
      serverRunningLog (JSPort.num 8000) ∉
        (startServer (ListenResult.error "listen EADDRINUSE: address already in use :::8000")
          (JSPort.num 8000)).logs ∧
      catchLog "listen EADDRINUSE: address already in use :::8000" ∉
        (startServer (ListenResult.error "listen EADDRINUSE: address already in use :::8000")
          (JSPort.num 8000)).logs := by
  decide

/-- C5: the health response timestamp is a valid ISO-8601 UTC datetime
(it parses back to the clock instant), and timestamps of sequential requests
under a monotone clock are monotonically non-decreasing. The clock bound keeps
the instant within the four-digit-year ISO format produced by
`Date.prototype.toISOString`. -/
theorem health_timestamp_valid_monotone (t1 t2 : Nat) (req1 req2 : Request)
    (ht1 : t1 ≤ 253402300799999) (ht2 : t2 ≤ 253402300799999) (hseq : t1 ≤ t2)
    (hm1 : req1.method = Method.GET) (hp1 : req1.path = "/health")
    (hm2 : req2.method = Method.GET) (hp2 : req2.path = "/health") :
    ∃ s1 s2 v1 v2,
      (handleRequest t1 req1).body.jsonField "timestamp" = some (JSValue.str s1) ∧
      (handleRequest t2 req2).body.jsonField "timestamp" = some (JSValue.str s2) ∧
      parseISOms s1 = some v1 ∧ parseISOms s2 = some v2 ∧ v1 ≤ v2 := by
  refine ⟨toISOString t1, toISOString t2, t1, t2, ?_, ?_, ?_, ?_, hseq⟩
  · rw [handleRequest_health t1 req1 hm1 hp1]
    rfl
  · rw [handleRequest_health t2 req2 hm2 hp2]
    rfl
  · exact parseISOms_toISOString t1 ht1
  · exact parseISOms_toISOString t2 ht2

set_option maxRecDepth 20000 in
theorem health_timestamp_valid_monotone_witness :
    ∃ s1 s2 v1 v2,
      (handleRequest 1700000000000 ⟨Method.GET, "/health", [], [], ""⟩).body.jsonField
        "timestamp" = some (JSValue.str s1) ∧
      (handleRequest 1893456000000 ⟨Method.GET, "/health", [], [], "ignored"⟩).body.jsonField
        "timestamp" = some (JSValue.str s2) ∧
      parseISOms s1 = some v1 ∧ parseISOms s2 = some v2 ∧ v1 ≤ v2 :=
  health_timestamp_valid_monotone 1700000000000 1893456000000 _ _
    (by decide) (by decide) (by decide) rfl rfl rfl rfl

/-- C6: the health response does not depend on the request: two GET requests to
`/health` handled at the same clock instant receive identical responses,
whatever their bodies, query parameters and headers. -/
theorem health_request_independent (now : Nat) (req1 req2 : Request)
    (hm1 : req1.method = Method.GET) (hp1 : req1.path = "/health")
    (hm2 : req2.method = Method.GET) (hp2 : req2.path = "/health") :
    handleRequest now req1 = handleRequest now req2 := by
  rw [handleRequest_health now req1 hm1 hp1, handleRequest_health now req2 hm2 hp2]
  rfl

theorem health_request_independent_witness :
    handleRequest 1760000000000 ⟨Method.GET, "/health", [("authorization", "Bearer x")],
        [("a", "1")], "body-one"⟩ =
      handleRequest 1760000000000 ⟨Method.GET, "/health", [], [], "completely different"⟩ :=
  health_request_independent 1760000000000 _ _ rfl rfl rfl rfl

/-- C7: the `message` field of the health response is one constant string,
the same for every request and every clock instant. -/
theorem health_message_constant (now : Nat) (req : Request)
    (hm : req.method = Method.GET) (hp : req.path = "/health") :
    (handleRequest now req).body.jsonField "message" =
      some (JSValue.str "Server is running") := by
  rw [handleRequest_health now req hm hp]
  rfl

theorem health_message_constant_witness :
    (handleRequest 1234567890123 ⟨Method.GET, "/health", [], [], ""⟩).body.jsonField
      "message" = some (JSValue.str "Server is running") :=
  health_message_constant 1234567890123 _ rfl rfl

/-- C8: any request that is not a GET of `/health` — for example POST /health
or GET /unknown — receives Express's default 404, a non-200 status. -/
theorem non_health_request_404 (now : Nat) (req : Request)
    (h : ¬ (req.method = Method.GET ∧ req.path = "/health")) :
    (handleRequest now req).status = 404 ∧ (handleRequest now req).status ≠ 200 := by
  unfold handleRequest
  rw [if_neg (show ¬ (req.method = healthRoute.1 ∧ req.path = healthRoute.2) from h)]
  exact ⟨rfl, show (404 : Nat) ≠ 200 by decide⟩

theorem non_health_request_404_witness :
    ((handleRequest 1760000000000 ⟨Method.POST, "/health", [], [], ""⟩).status = 404 ∧
      (handleRequest 1760000000000 ⟨Method.POST, "/health", [], [], ""⟩).status ≠ 200) ∧
    ((handleRequest 1760000000000 ⟨Method.GET, "/unknown", [], [], ""⟩).status = 404 ∧
      (handleRequest 1760000000000 ⟨Method.GET, "/unknown", [], [], ""⟩).status ≠ 200) :=
  ⟨non_health_request_404 1760000000000 _ (by decide),
    non_health_request_404 1760000000000 _ (by decide)⟩

/-- C9: the health handler cannot fail: every GET `/health` request is answered
by exactly the health handler's single 200 response, and serializing its body
(JSON.stringify, which can only throw on BigInt values) succeeds. -/
theorem health_handler_infallible (now : Nat) (req : Request)
    (hm : req.method = Method.GET) (hp : req.path = "/health") :
    handleRequest now req = healthHandler now req ∧
      (handleRequest now req).status = 200 ∧
      (stringifyBody (handleRequest now req).body).isSome = true := by
  refine ⟨handleRequest_health now req hm hp, ?_, ?_⟩
  · rw [handleRequest_health now req hm hp]
    rfl
  · rw [handleRequest_health now req hm hp]
    rfl

theorem health_handler_infallible_witness :
    handleRequest 1760000000000 ⟨Method.GET, "/health", [], [], ""⟩ =
        healthHandler 1760000000000 ⟨Method.GET, "/health", [], [], ""⟩ ∧
      (handleRequest 1760000000000 ⟨Method.GET, "/health", [], [], ""⟩).status = 200 ∧
      (stringifyBody (handleRequest 1760000000000
        ⟨Method.GET, "/health", [], [], ""⟩).body).isSome = true :=
  health_handler_infallible 1760000000000 _ rfl rfl

/-- C10: a PORT environment variable equal to the empty string (falsy in
JavaScript) also falls back to the default 8000, while any non-empty PORT
string is passed to `app.listen` verbatim, without numeric validation. -/
theorem port_empty_string_default :
    resolvePort (some "") = JSPort.num 8000 ∧
      ∀ s : String, s ≠ "" → resolvePort (some s) = JSPort.str s := by
  refine ⟨rfl, fun s hs => ?_⟩
  show (if s = "" then JSPort.num 8000 else JSPort.str s) = JSPort.str s
  rw [if_neg hs]

theorem port_empty_string_default_witness :
    resolvePort (some "") = JSPort.num 8000 ∧
      resolvePort (some "not-a-number") = JSPort.str "not-a-number" :=
  ⟨port_empty_string_default.1, port_empty_string_default.2 "not-a-number" (by decide)⟩
